import Mathlib

/-!
Shallow embedding of the RabbitMQ integration layer of the repository
(`rabbitmq.service.ts`, the beginner / intermediate / advanced / expert
consumers, and `payment.service.ts`), together with theorems settling the
frozen claims about it.

Conventions of the embedding:
- The amqplib channel/connection pair is modelled by `Svc` (the service's
  two cached references) plus a `World` holding the broker-side state:
  a fresh-id counter for channels, the set of closed channel ids, and the
  queues with their message lists.
- JavaScript exceptions are modelled with `Except` / explicit error
  branches; a thrown error on a path that touched no broker state returns
  the world unchanged.
- `JSON.parse` failures are modelled by an `Option` payload on the
  incoming message (`none` = unparseable content).
- Time is not modelled; the backoff delays actually awaited are recorded,
  in milliseconds, in the order they occur.
-/

/-! ## Broker-side state and the connection manager (rabbitmq.service.ts) -/

/-- A message as it sits in a broker queue: either a plain serialized
payload, or a dead-letter wrap carrying the original body plus the
`failureReason` string appended by `sendToDLQ` (the `failedAt` timestamp is
not modelled). -/
inductive WireMsg
  | plain (body : String)
  | dlqWrapped (body : String) (failureReason : String)
deriving Repr, DecidableEq

/-- The two cached references held by `RabbitMQService`: `this.channel` and
`this.connection`. `none` models a `null` reference; a `some` id names a
channel/connection object. -/
structure Svc where
  channel : Option Nat
  connection : Option Nat
deriving Repr, DecidableEq

/-- Broker-side state: the id the next created channel will get, the ids of
channels that have been closed, and the declared queues with their
message lists (oldest first). -/
structure World where
  nextId : Nat
  closed : List Nat
  queues : List (String × List WireMsg)
deriving Repr, DecidableEq

/-- `channel.assertQueue(q, ...)`: declare the queue if absent, no-op if
present (durability arguments are not modelled). -/
def assertQueue (w : World) (q : String) : World :=
  if (w.queues.map Prod.fst).contains q then w
  else { w with queues := w.queues ++ [(q, [])] }

/-- `channel.sendToQueue(q, m)`: assert the queue then append the message. -/
def enqueue (w : World) (q : String) (m : WireMsg) : World :=
  let w1 := assertQueue w q
  { w1 with queues := w1.queues.map fun p => if p.1 = q then (p.1, p.2 ++ [m]) else p }

/-- `RabbitMQService.connect()` (part_003 lines 21-53): if a channel
reference exists it is closed first, with errors during that close
swallowed (so closing an already-closed id is harmless); then a fresh
connection and channel are created and cached. -/
def connect (svc : Svc) (w : World) : Svc × World :=
  let w1 :=
    match svc.channel with
    | some c => { w with closed := c :: w.closed }
    | none => w
  (⟨some w1.nextId, some w1.nextId⟩, { w1 with nextId := w1.nextId + 1 })

/-- `RabbitMQService.ensureChannel()` (part_003 lines 58-67): if both the
channel and the connection references are present, return at once;
otherwise invoke `connect()`. -/
def ensureChannel (svc : Svc) (w : World) : Svc × World :=
  if svc.channel.isSome && svc.connection.isSome then (svc, w)
  else connect svc w

/-- Errors thrown by the publish paths of `RabbitMQService`. -/
inductive RmqError
  | invalidPayment
  | nullChannel
deriving Repr, DecidableEq

/-- The `message` property of the thrown error. `invalidPayment` is the
explicit `throw new Error('Invalid payment data provided')`; `nullChannel`
is the TypeError raised by dereferencing a null `this.channel`. -/
def RmqError.message : RmqError → String
  | .invalidPayment => "Invalid payment data provided"
  | .nullChannel => "Cannot read properties of null"

/-- A payment entity as passed to `sendToPaymentQueue`. `id : Option String`
models the JS `id` field being `null`/`undefined` (`none`) or a string;
the empty string is the falsy string value. -/
structure Payment where
  id : Option String
  userId : String
  orderId : String
  amount : Nat
deriving Repr, DecidableEq

/-- The serialized body built by `createPaymentMessage` (field values joined;
JSON syntax is not modelled). -/
def serializePayment (pid : String) (p : Payment) : String :=
  "id=" ++ pid ++ ";userId=" ++ p.userId ++ ";orderId=" ++ p.orderId

/-- The JavaScript truthiness test `!payment?.id`: true when the payment
object itself is null/undefined, when its `id` is null/undefined, or when
`id` is the empty string. -/
def paymentIdFalsy : Option Payment → Bool
  | none => true
  | some p =>
    match p.id with
    | none => true
    | some s => s = ""

/-- `RabbitMQService.sendToPaymentQueue` (part_003 lines 111-178): validates
`!payment?.id` first and throws before touching the broker; otherwise goes
through `sendToQueueWithRetry`, which calls `ensureChannel()` and then
asserts and publishes to the `payments` queue. The catch-and-reconnect arm
for channel errors is not reachable in this model because `ensureChannel`
always yields a live channel. -/
def sendToPaymentQueue (svc : Svc) (w : World) (payment : Option Payment) :
    Except RmqError Svc × World :=
  match payment with
  | none => (.error .invalidPayment, w)
  | some p =>
    match p.id with
    | none => (.error .invalidPayment, w)
    | some pid =>
      if pid = "" then (.error .invalidPayment, w)
      else
        let (svc1, w1) := ensureChannel svc w
        (.ok svc1, enqueue w1 "payments" (.plain (serializePayment pid p)))

/-- `RabbitMQService.sendToWorkQueue` (part_003 lines 184-192): uses
`this.channel` directly — no `ensureChannel()` call — so a null channel
reference raises a TypeError before any broker interaction. -/
def sendToWorkQueue (svc : Svc) (w : World) (queueName : String) (task : String) :
    Except RmqError Svc × World :=
  match svc.channel with
  | none => (.error .nullChannel, w)
  | some _ => (.ok svc, enqueue w queueName (.plain task))

/-- A topic-exchange binding as recorded by `bindQueue`: this queue receives
messages whose routing key matches this pattern. -/
structure Binding where
  queue : String
  pattern : String
deriving Repr, DecidableEq

/-- Splits a routing key or pattern at the dots, as a list of segments
(each a list of characters). -/
def splitSegsAux : List Char → List Char → List (List Char)
  | [], acc => [acc.reverse]
  | c :: cs, acc =>
    if c = '.' then acc.reverse :: splitSegsAux cs []
    else splitSegsAux cs (c :: acc)

/-- Dot-separated segments of a routing key or binding pattern. -/
def segs (s : String) : List (List Char) :=
  splitSegsAux s.data []

/-- Modelled from the spec: the AMQP topic-exchange matching performed by
the external broker (not code of this repository). Per the spec's wildcard
semantics, `*` matches exactly one dot-delimited segment and every other
pattern segment matches only itself; the zero-or-more wildcard `#` is
unused by this repository's bindings and is not modelled. -/
def matchSegs : List (List Char) → List (List Char) → Bool
  | [], [] => true
  | p :: ps, k :: ks => (p = ['*'] || p = k) && matchSegs ps ks
  | _, _ => false

/-- A binding pattern matches a routing key iff their segment lists match
segment-wise under the `*` wildcard rule. -/
def topicMatch (pattern key : String) : Bool :=
  matchSegs (segs pattern) (segs key)

/-- The bindings declared against the `payment_events` topic exchange by
`AdvancedConsumer` (advanced.consumer.ts lines 75, 114, 150, 186). -/
def paymentEventsBindings : List Binding :=
  [⟨"approved_payments", "payment.credit.approve"⟩,
   ⟨"refund_requests", "payment.refund"⟩,
   ⟨"email_notifications", "payment.*"⟩,
   ⟨"audit_logs", "payment.*"⟩]

/-- The queues to which the `payment_events` exchange delivers a copy of a
message published with the given routing key. -/
def deliveredQueues (key : String) : List String :=
  (paymentEventsBindings.filter fun b => topicMatch b.pattern key).map Binding.queue

/-- `RabbitMQService.sendToTopicExchange` (part_003 lines 198-213): uses
`this.channel` directly — no `ensureChannel()` — so a null channel raises;
otherwise asserts the exchange and publishes, the broker fanning the
message out to every queue whose binding pattern matches the key. -/
def sendToTopicExchange (svc : Svc) (w : World) (routingKey : String) (message : String) :
    Except RmqError Svc × World :=
  match svc.channel with
  | none => (.error .nullChannel, w)
  | some _ =>
    (.ok svc,
     (deliveredQueues routingKey).foldl (fun acc q => enqueue acc q (.plain message)) w)

/-- `RabbitMQService.sendToDLQ` (part_003 lines 219-240): uses `this.channel`
directly — no `ensureChannel()` — so a null channel raises; otherwise
asserts the queue named `queueName ++ ".dlq"` and publishes the original
message wrapped with the failure reason. -/
def sendToDLQ (svc : Svc) (w : World) (queueName : String) (message : String) (reason : String) :
    Except RmqError Svc × World :=
  match svc.channel with
  | none => (.error .nullChannel, w)
  | some _ =>
    (.ok svc, enqueue w (queueName ++ ".dlq") (.dlqWrapped message reason))

/-! ## Domain collaborators (payment.service.ts) and consumer callbacks -/

/-- A payment record as read from the store by `PaymentService.findOne`. -/
structure PaymentRec where
  id : String
  status : String
  amount : Nat
deriving Repr, DecidableEq

/-- `PaymentService.findOne` (payment.service.ts lines 48-58): looks the
record up by id in the store; throws a NotFoundException when absent. -/
def findOne (store : String → Option PaymentRec) (id : String) : Except String PaymentRec :=
  match store id with
  | none => .error ("Payment with ID " ++ id ++ " not found")
  | some p => .ok p

/-- The acknowledgement action a consumer callback performs on the delivered
message: `channel.ack(msg)` or `channel.nack(msg, allUpTo, requeue)`. -/
inductive AckAction
  | ack
  | nack (allUpTo requeue : Bool)
deriving Repr, DecidableEq

/-- A JSON value, as far as the RPC payloads need one. -/
inductive JVal
  | str (s : String)
  | num (n : Nat)
  | jbool (b : Bool)
deriving Repr, DecidableEq

/-- A JSON object: an association list from key to value. -/
abbrev JObj := List (String × JVal)

/-- An RPC request as parsed by the server: the `method` string and the
`paymentId` argument. -/
structure RpcRequest where
  method : String
  paymentId : String
deriving Repr, DecidableEq

/-- An RPC request as delivered on `payment_rpc`: `request = none` models
content that `JSON.parse` rejects, plus the `replyTo` and `correlationId`
message properties. -/
structure RpcMessage where
  request : Option RpcRequest
  replyTo : String
  correlationId : String
deriving Repr, DecidableEq

/-- The observable effects of one `processWithRetry` call: the RPC response
object it returns, the backoff delays it awaited (milliseconds, in order),
and the deposits it made through `sendToDLQ` (dead-letter queue name,
original request, failure reason). -/
structure RetryRun where
  response : JObj
  delays : List Nat
  dlq : List (String × RpcRequest × String)
deriving Repr, DecidableEq

/-- Maximum number of additional attempts in `processWithRetry`
(expert.consumer.ts line 174). -/
def maxRetries : Nat := 3

/-- `ExpertConsumer.processWithRetry` (expert.consumer.ts lines 173-211).
`attempt i` is the combined outcome of `findOne` + `processPayment` on the
attempt made with `retries = i`: `.ok payment` on success, `.error msg`
with the thrown error's message on failure. On failure with
`retries < maxRetries` it awaits `2 ^ retries * 1000` ms and recurses with
`retries + 1`; once `retries = maxRetries` it deposits the original
request on `payment_processing.dlq` with reason
`"Max retries exceeded: <cause>"` and returns the failure response. -/
def processWithRetry (attempt : Nat → Except String PaymentRec) (request : RpcRequest)
    (retries : Nat) : RetryRun :=
  match attempt retries with
  | .ok payment =>
    { response := [("success", .jbool true), ("paymentId", .str payment.id),
                   ("retries", .num retries)],
      delays := [], dlq := [] }
  | .error msg =>
    if h : retries < maxRetries then
      let rest := processWithRetry attempt request (retries + 1)
      { response := rest.response,
        delays := 2 ^ retries * 1000 :: rest.delays,
        dlq := rest.dlq }
    else
      { response := [("success", .jbool false), ("error", .str "Max retries exceeded"),
                     ("sentToDLQ", .jbool true)],
        delays := [],
        dlq := [("payment_processing.dlq", request, "Max retries exceeded: " ++ msg)] }
termination_by maxRetries - retries

/-- The observable effects of the RPC server consume callback on one
message: the responses it published (destination queue, correlation id,
body), the ack/nack it performed, and the retry side effects. -/
structure RpcServerOutcome where
  sent : List (String × String × JObj)
  action : AckAction
  delays : List Nat
  dlq : List (String × RpcRequest × String)
deriving Repr, DecidableEq

/-- The condition under which the RPC server's try block throws: the content
fails to parse, or the method is `getPaymentStatus` and `findOne` throws
(`processWithRetry` catches its own errors and the default branch cannot
throw). -/
def rpcHandlerThrows (store : String → Option PaymentRec) (msg : RpcMessage) : Bool :=
  match msg.request with
  | none => true
  | some r => r.method == "getPaymentStatus" && (store r.paymentId).isNone

/-- The RPC server consume callback installed by `setupRPCServer`
(expert.consumer.ts lines 86-131): parse the request, dispatch on
`request.method` (`getPaymentStatus` reads the record and builds
`(paymentId, status, amount)`; `processPaymentWithRetry` runs the bounded
retry; anything else answers `(error, "Unknown method")`), publish the
response to `msg.replyTo` stamped with `msg.correlationId`, then ack; any
exception in the try block instead results in `nack(msg, false, false)`. -/
def rpcServerConsume (store : String → Option PaymentRec)
    (attempt : Nat → Except String PaymentRec) (msg : RpcMessage) : RpcServerOutcome :=
  match msg.request with
  | none => { sent := [], action := .nack false false, delays := [], dlq := [] }
  | some request =>
    if request.method == "getPaymentStatus" then
      match findOne store request.paymentId with
      | .error _ => { sent := [], action := .nack false false, delays := [], dlq := [] }
      | .ok payment =>
        { sent := [(msg.replyTo, msg.correlationId,
                    [("paymentId", .str payment.id), ("status", .str payment.status),
                     ("amount", .num payment.amount)])],
          action := .ack, delays := [], dlq := [] }
    else if request.method == "processPaymentWithRetry" then
      let run := processWithRetry attempt request 0
      { sent := [(msg.replyTo, msg.correlationId, run.response)],
        action := .ack, delays := run.delays, dlq := run.dlq }
    else
      { sent := [(msg.replyTo, msg.correlationId, [("error", .str "Unknown method")])],
        action := .ack, delays := [], dlq := [] }

/-- A message on the basic `payments` queue as seen by the beginner
consumer: `parsed = none` models content `JSON.parse` rejects, otherwise
the `id` field of the parsed message. -/
structure BasicMsg where
  parsed : Option String
deriving Repr, DecidableEq

/-- The beginner consumer callback `consumePayments`
(beginner.consumer.ts lines 56-84): parse, `findOne`, `processPayment`
(`processOk p = false` models `processPayment` throwing), ack on success —
and on ANY thrown error the catch branch also acks. -/
def consumePayments (store : String → Option PaymentRec) (processOk : PaymentRec → Bool)
    (msg : BasicMsg) : AckAction :=
  match msg.parsed with
  | none => .ack
  | some mid =>
    match store mid with
    | none => .ack
    | some payment =>
      if processOk payment then .ack
      else .ack

/-- The failure condition of the intermediate payment-processing callback:
the content fails to parse, `findOne` throws, or `processPayment` throws. -/
def workFails (store : String → Option PaymentRec) (processOk : PaymentRec → Bool)
    (msg : BasicMsg) : Bool :=
  match msg.parsed with
  | none => true
  | some mid =>
    match store mid with
    | none => true
    | some payment => !processOk payment

/-- The intermediate consumer callback `consumePaymentProcessing`
(part_002 lines 64-98): parse, `findOne`, `processPayment`; ack on
success, and on any thrown error `nack(msg, false, true)` — negative
acknowledgement with requeue. -/
def consumePaymentProcessing (store : String → Option PaymentRec)
    (processOk : PaymentRec → Bool) (msg : BasicMsg) : AckAction :=
  match msg.parsed with
  | none => .nack false true
  | some mid =>
    match store mid with
    | none => .nack false true
    | some payment =>
      if processOk payment then .ack
      else .nack false true

/-- A message on the `fraud_check` queue: `parsed = none` models content
`JSON.parse` rejects, otherwise the `(paymentId, amount, userId)` fields. -/
structure FraudMsg where
  parsed : Option (String × Nat × String)
deriving Repr, DecidableEq

/-- The intermediate consumer callback `consumeFraudChecks`
(part_002 lines 105-145): parse, `stripeService.checkFraud(amount, userId)`
(returning the risk string or throwing); a high-risk result only logs and
still acks; any thrown error results in `nack(msg, false, true)`. -/
def consumeFraudChecks (checkFraud : Nat → String → Except String String)
    (msg : FraudMsg) : AckAction :=
  match msg.parsed with
  | none => .nack false true
  | some (_, amount, userId) =>
    match checkFraud amount userId with
    | .error _ => .nack false true
    | .ok risk =>
      if risk = "high" then .ack
      else .ack

/-- The failure condition of the fraud-check callback: the content fails
to parse, or `checkFraud` throws. -/
def fraudFails (checkFraud : Nat → String → Except String String)
    (msg : FraudMsg) : Bool :=
  match msg.parsed with
  | none => true
  | some (_, amount, userId) =>
    match checkFraud amount userId with
    | .error _ => true
    | .ok _ => false

/-- A message on the dead-letter queue `payment_processing.dlq`:
`parsed = none` models content `JSON.parse` rejects, otherwise the
failure metadata `(failureReason, failedAt)`. -/
structure DlqMsg where
  parsed : Option (String × String)
deriving Repr, DecidableEq

/-- The DLQ consumer callback `consumeDLQ` (expert.consumer.ts lines
138-167): parse and alert; acks on success, and the catch branch for a
parse failure also acks — it never nacks and never publishes anything, so
nothing is requeued or re-dead-lettered. The returned list is the set of
messages it published (always empty). -/
def consumeDLQ (msg : DlqMsg) : AckAction × List (String × WireMsg) :=
  match msg.parsed with
  | none => (.ack, [])
  | some _ => (.ack, [])

/-- One delivery step of a queue with a single prefetch-1 consumer: the
head message is delivered to the callback; an ack removes it,
`nack(_, requeue := true)` returns it to the head of the queue for
redelivery, `nack(_, requeue := false)` drops it. -/
def queueStep {α : Type} (consume : α → AckAction) (q : List α) : List α :=
  match q with
  | [] => []
  | m :: rest =>
    match consume m with
    | .ack => rest
    | .nack _ true => m :: rest
    | .nack _ false => rest

/-! ## Concrete fixtures used by witnesses and counterexamples -/

/-- A concrete payment record. -/
def payRec1 : PaymentRec := ⟨"p1", "completed", 100⟩

/-- A store holding exactly the record `payRec1` under id `p1`. -/
def storeP1 : String → Option PaymentRec :=
  fun s => if s = "p1" then some payRec1 else none

/-- An attempt oracle for a processor that fails exactly twice, then
succeeds. -/
def failTwiceAttempt : Nat → Except String PaymentRec :=
  fun i => if i < 2 then .error "Payment processing failed" else .ok payRec1

/-- An attempt oracle for a processor that always fails. -/
def alwaysFailAttempt : Nat → Except String PaymentRec :=
  fun _ => .error "Payment processing failed"

/-- A concrete `processPaymentWithRetry` RPC request. -/
def retryReq : RpcRequest := ⟨"processPaymentWithRetry", "p1"⟩

/-- A concrete `getPaymentStatus` RPC message for `p1`. -/
def statusMsg : RpcMessage := ⟨some ⟨"getPaymentStatus", "p1"⟩, "amq.rpc.reply.1", "corr-1"⟩

/-- An empty broker world. -/
def world0 : World := ⟨0, [], []⟩

/-- A broker world in which channel id 0 has already been handed out. -/
def worldOpen : World := ⟨1, [], []⟩

/-- A payment entity with a truthy id. -/
def validPayment : Payment := ⟨some "p1", "u1", "o1", 50⟩

/-! ## Theorems -/

/-- Unfolding lemma: a successful attempt at `retries = r` returns the
success response at once, with no delay and no DLQ deposit. -/
theorem pwr_ok (attempt : Nat → Except String PaymentRec) (request : RpcRequest) (r : Nat)
    (p : PaymentRec) (h : attempt r = .ok p) :
    processWithRetry attempt request r =
      { response := [("success", .jbool true), ("paymentId", .str p.id), ("retries", .num r)],
        delays := [], dlq := [] } := by
  rw [processWithRetry, h]

/-- Unfolding lemma: a failed attempt at `retries = r < maxRetries` awaits
`2 ^ r * 1000` ms and recurses with `retries = r + 1`. -/
theorem pwr_err (attempt : Nat → Except String PaymentRec) (request : RpcRequest) (r : Nat)
    (e : String) (h : attempt r = .error e) (hr : r < maxRetries) :
    processWithRetry attempt request r =
      { response := (processWithRetry attempt request (r + 1)).response,
        delays := 2 ^ r * 1000 :: (processWithRetry attempt request (r + 1)).delays,
        dlq := (processWithRetry attempt request (r + 1)).dlq } := by
  rw [processWithRetry, h]
  simp [hr]

/-- Unfolding lemma: a failed attempt at `retries = maxRetries` deposits the
request to the DLQ and returns the failure response. -/
theorem pwr_max (attempt : Nat → Except String PaymentRec) (request : RpcRequest) (r : Nat)
    (e : String) (h : attempt r = .error e) (hr : ¬ r < maxRetries) :
    processWithRetry attempt request r =
      { response := [("success", .jbool false), ("error", .str "Max retries exceeded"),
                     ("sentToDLQ", .jbool true)],
        delays := [],
        dlq := [("payment_processing.dlq", request, "Max retries exceeded: " ++ e)] } := by
  rw [processWithRetry, h]
  simp [hr]

/-- C1: `processWithRetry` makes attempt 0 immediately; attempt `n`
(n = 1..3) is preceded by a delay of `2 ^ (n - 1)` time units of 1000 ms
(so the delays before attempts 1..k are exactly `2 ^ 0 * 1000, ...,
2 ^ (k-1) * 1000`); if the first success happens at attempt `k ≤ 3` the
result is the success response with `retries = k` and nothing reaches the
DLQ; if all 4 attempts fail, the original request is deposited on
`payment_processing.dlq` with reason `"Max retries exceeded: <cause>"`
(cause = the final attempt's error message) and the result is the
`sentToDLQ` failure response. -/
theorem processWithRetry_spec (attempt : Nat → Except String PaymentRec)
    (request : RpcRequest) :
    (∀ k p, k ≤ maxRetries →
      (∀ i, i < k → ∃ e, attempt i = Except.error e) →
      attempt k = Except.ok p →
      processWithRetry attempt request 0 =
        { response := [("success", .jbool true), ("paymentId", .str p.id),
                       ("retries", .num k)],
          delays := (List.range k).map fun i => 2 ^ i * 1000,
          dlq := [] }) ∧
    (∀ e3, (∀ i, i < maxRetries → ∃ e, attempt i = Except.error e) →
      attempt maxRetries = Except.error e3 →
      processWithRetry attempt request 0 =
        { response := [("success", .jbool false), ("error", .str "Max retries exceeded"),
                       ("sentToDLQ", .jbool true)],
          delays := [1000, 2000, 4000],
          dlq := [("payment_processing.dlq", request,
                   "Max retries exceeded: " ++ e3)] }) := by
  constructor
  · intro k p hk herr hok
    have hk3 : k ≤ 3 := hk
    interval_cases k
    · rw [pwr_ok attempt request 0 p hok]
      simp
    · obtain ⟨e0, he0⟩ := herr 0 (by omega)
      rw [pwr_err attempt request 0 e0 he0 (by decide),
          pwr_ok attempt request 1 p hok]
      simp [List.range_succ]
    · obtain ⟨e0, he0⟩ := herr 0 (by omega)
      obtain ⟨e1, he1⟩ := herr 1 (by omega)
      rw [pwr_err attempt request 0 e0 he0 (by decide),
          pwr_err attempt request 1 e1 he1 (by decide),
          pwr_ok attempt request 2 p hok]
      simp [List.range_succ]
    · obtain ⟨e0, he0⟩ := herr 0 (by omega)
      obtain ⟨e1, he1⟩ := herr 1 (by omega)
      obtain ⟨e2, he2⟩ := herr 2 (by omega)
      rw [pwr_err attempt request 0 e0 he0 (by decide),
          pwr_err attempt request 1 e1 he1 (by decide),
          pwr_err attempt request 2 e2 he2 (by decide),
          pwr_ok attempt request 3 p hok]
      simp [List.range_succ]
  · intro e3 herr he3
    obtain ⟨e0, he0⟩ := herr 0 (by decide)
    obtain ⟨e1, he1⟩ := herr 1 (by decide)
    obtain ⟨e2, he2⟩ := herr 2 (by decide)
    rw [pwr_err attempt request 0 e0 he0 (by decide),
        pwr_err attempt request 1 e1 he1 (by decide),
        pwr_err attempt request 2 e2 he2 (by decide),
        pwr_max attempt request 3 e3 he3 (by decide)]
    simp

/-- C1 witness: a processor failing exactly twice then succeeding yields
`retries = 2` after delays 1000 and 2000 ms; a processor that always fails
yields the `sentToDLQ` response after delays 1000, 2000, 4000 ms with the
request deposited on `payment_processing.dlq`. -/
theorem processWithRetry_spec_witness :
    processWithRetry failTwiceAttempt retryReq 0 =
      { response := [("success", .jbool true), ("paymentId", .str "p1"),
                     ("retries", .num 2)],
        delays := [1000, 2000], dlq := [] } ∧
    processWithRetry alwaysFailAttempt retryReq 0 =
      { response := [("success", .jbool false), ("error", .str "Max retries exceeded"),
                     ("sentToDLQ", .jbool true)],
        delays := [1000, 2000, 4000],
        dlq := [("payment_processing.dlq", retryReq,
                 "Max retries exceeded: Payment processing failed")] } := by
  constructor
  · have h := (processWithRetry_spec failTwiceAttempt retryReq).1 2 payRec1 (by decide)
      (fun i hi => ⟨"Payment processing failed", by simp [failTwiceAttempt, hi]⟩)
      rfl
    exact h.trans (by decide)
  · have h := (processWithRetry_spec alwaysFailAttempt retryReq).2
      "Payment processing failed"
      (fun i _ => ⟨"Payment processing failed", rfl⟩) rfl
    exact h.trans (by decide)

/-- C2 counterexample: the routing key `payment.credit.approve` has three
dot-delimited segments, so the wildcard binding `payment.*` does NOT match
it and the `payment_events` exchange delivers it to neither
`email_notifications` nor `audit_logs` — contrary to the claim that both
wildcard-bound queues receive it. -/
theorem topic_routing_counterexample :
    "email_notifications" ∉ deliveredQueues "payment.credit.approve" ∧
    "audit_logs" ∉ deliveredQueues "payment.credit.approve" ∧
    topicMatch "payment.*" "payment.credit.approve" = false := by
  decide

/-- C2 amended: under the declared bindings, a publish with routing key
`payment.credit.approve` is delivered to `approved_payments` only (the
two-segment wildcard `payment.*` does not match the three-segment key),
and a publish with key `payment.refund` is delivered to `refund_requests`
and both wildcard-bound queues but not `approved_payments`. -/
theorem topic_routing_amended :
    deliveredQueues "payment.credit.approve" = ["approved_payments"] ∧
    deliveredQueues "payment.refund" =
      ["refund_requests", "email_notifications", "audit_logs"] ∧
    topicMatch "payment.*" "payment.refund" = true ∧
    topicMatch "payment.*" "payment.credit.approve" = false := by
  decide

/-- C3 counterexample: with an open channel and connection (id 0) cached,
`connect()` is not a no-op — it closes channel 0 and installs a fresh
channel (id 1) in its place. -/
theorem connect_not_noop_counterexample :
    connect ⟨some 0, some 0⟩ worldOpen ≠ (⟨some 0, some 0⟩, worldOpen) ∧
    (connect ⟨some 0, some 0⟩ worldOpen).1.channel ≠ some 0 ∧
    0 ∈ (connect ⟨some 0, some 0⟩ worldOpen).2.closed := by
  decide

/-- C3 amended: `connect()` unconditionally closes any existing cached
channel (errors during that close are swallowed; the close happens whether
or not the channel is live) and then installs a freshly created connection
and channel; the idempotent if-already-open-do-nothing behaviour belongs
to `ensureChannel()`, which returns the state unchanged whenever both the
channel and the connection references are present. -/
theorem connect_closes_then_reconnects (svc : Svc) (w : World) :
    ((connect svc w).1.channel = some w.nextId ∧
     (connect svc w).1.connection = some w.nextId ∧
     (connect svc w).2.nextId = w.nextId + 1) ∧
    (∀ c, svc.channel = some c → c ∈ (connect svc w).2.closed) ∧
    (svc.channel.isSome = true → svc.connection.isSome = true →
      ensureChannel svc w = (svc, w)) := by
  refine ⟨?_, ?_, ?_⟩
  · cases h : svc.channel <;> simp [connect, h]
  · intro c hc
    simp [connect, hc]
  · intro h1 h2
    simp [ensureChannel, h1, h2]

/-- C3 amended witness: at the concrete open state (channel 0, next id 1),
`connect` installs channel 1, records 0 as closed, and `ensureChannel` is
the no-op. -/
theorem connect_closes_then_reconnects_witness :
    (connect ⟨some 0, some 0⟩ worldOpen).1.channel = some 1 ∧
    0 ∈ (connect ⟨some 0, some 0⟩ worldOpen).2.closed ∧
    ensureChannel ⟨some 0, some 0⟩ worldOpen = (⟨some 0, some 0⟩, worldOpen) := by
  have h := connect_closes_then_reconnects ⟨some 0, some 0⟩ worldOpen
  exact ⟨h.1.1, h.2.1 0 rfl, h.2.2 rfl rfl⟩

/-- C4 counterexample: with a null cached channel, `sendToWorkQueue`,
`sendToTopicExchange` and `sendToDLQ` do not reconnect — they dereference
the null channel and throw, leaving the broker untouched — contrary to
the claim that every publish path invokes `ensureChannel()` first. -/
theorem publish_paths_counterexample :
    sendToWorkQueue ⟨none, none⟩ world0 "payment_processing" "task" =
      (.error .nullChannel, world0) ∧
    sendToTopicExchange ⟨none, none⟩ world0 "payment.complete" "m" =
      (.error .nullChannel, world0) ∧
    sendToDLQ ⟨none, none⟩ world0 "payment_processing" "m" "r" =
      (.error .nullChannel, world0) := by
  exact ⟨rfl, rfl, rfl⟩

/-- C4 amended: of the four publish paths, only `sendToPaymentQueue`
(through `sendToQueueWithRetry`) invokes `ensureChannel()` before using
the channel — it never raises a null-channel error, and on a missing
channel it reconnects and publishes; `sendToWorkQueue`,
`sendToTopicExchange` and `sendToDLQ` use the cached channel directly and
raise a null-channel error whenever the reference is absent. -/
theorem publish_paths_null_channel (svc : Svc) (w : World) (payment : Option Payment)
    (q t rk m r : String) :
    ((sendToPaymentQueue svc w payment).1 ≠ .error .nullChannel) ∧
    (paymentIdFalsy payment = false →
      (sendToPaymentQueue svc w payment).1 = .ok (ensureChannel svc w).1) ∧
    (svc.channel = none →
      sendToWorkQueue svc w q t = (.error .nullChannel, w) ∧
      sendToTopicExchange svc w rk m = (.error .nullChannel, w) ∧
      sendToDLQ svc w q m r = (.error .nullChannel, w)) := by
  refine ⟨?_, ?_, ?_⟩
  · match payment with
    | none => simp [sendToPaymentQueue]
    | some p =>
      match hid : p.id with
      | none => simp [sendToPaymentQueue, hid]
      | some pid =>
        by_cases hp : pid = "" <;> simp [sendToPaymentQueue, hid, hp]
  · intro hfalsy
    match payment with
    | none => simp [paymentIdFalsy] at hfalsy
    | some p =>
      match hid : p.id with
      | none => simp [paymentIdFalsy, hid] at hfalsy
      | some pid =>
        simp [paymentIdFalsy, hid] at hfalsy
        simp [sendToPaymentQueue, hid, hfalsy]
  · intro hnone
    refine ⟨?_, ?_, ?_⟩ <;> simp [sendToWorkQueue, sendToTopicExchange, sendToDLQ, hnone]

/-- C4 amended witness: with no cached channel, a valid payment is still
published by `sendToPaymentQueue` (it reconnects via `ensureChannel`),
while the three direct paths throw the null-channel error. -/
theorem publish_paths_null_channel_witness :
    (sendToPaymentQueue ⟨none, none⟩ world0 (some validPayment)).1 ≠
      .error .nullChannel ∧
    (sendToPaymentQueue ⟨none, none⟩ world0 (some validPayment)).1 =
      .ok (ensureChannel ⟨none, none⟩ world0).1 ∧
    sendToWorkQueue ⟨none, none⟩ world0 "payment_processing" "task" =
      (.error .nullChannel, world0) := by
  have h := publish_paths_null_channel ⟨none, none⟩ world0 (some validPayment)
    "payment_processing" "task" "payment.complete" "m" "r"
  exact ⟨h.1, h.2.1 (by decide), (h.2.2 rfl).1⟩

/-- C5 counterexample: the `getPaymentStatus` response object has no `id`
key at all — the record's identifier is sent under the key `paymentId` —
so the response is not `(id, status, amount)` as claimed. -/
theorem getPaymentStatus_id_key_counterexample :
    ((rpcServerConsume storeP1 alwaysFailAttempt statusMsg).sent.map
      fun t => (t.2.2.lookup "id", t.2.2.lookup "paymentId")) =
      [(none, some (JVal.str "p1"))] := by
  decide

/-- C5 amended: for every `getPaymentStatus` request whose payment record
exists, the server's sole response is the object
`(paymentId, status, amount)` — the record's identifier is carried under
the key `paymentId` (not `id`), together with its status and amount. -/
theorem getPaymentStatus_response (store : String → Option PaymentRec)
    (attempt : Nat → Except String PaymentRec) (msg : RpcMessage) (req : RpcRequest)
    (p : PaymentRec) (hreq : msg.request = some req)
    (hm : req.method = "getPaymentStatus") (hp : store req.paymentId = some p) :
    (rpcServerConsume store attempt msg).sent =
      [(msg.replyTo, msg.correlationId,
        [("paymentId", JVal.str p.id), ("status", JVal.str p.status),
         ("amount", JVal.num p.amount)])] ∧
    ((rpcServerConsume store attempt msg).sent.map fun t => t.2.2.lookup "paymentId") =
      [some (JVal.str p.id)] := by
  have hsent : (rpcServerConsume store attempt msg).sent =
      [(msg.replyTo, msg.correlationId,
        [("paymentId", JVal.str p.id), ("status", JVal.str p.status),
         ("amount", JVal.num p.amount)])] := by
    simp [rpcServerConsume, hreq, hm, findOne, hp]
  refine ⟨hsent, ?_⟩
  rw [hsent]
  simp [List.lookup]

/-- C5 amended witness: the concrete `getPaymentStatus` request for `p1`
yields the `(paymentId, status, amount)` response on the reply queue. -/
theorem getPaymentStatus_response_witness :
    (rpcServerConsume storeP1 alwaysFailAttempt statusMsg).sent =
      [("amq.rpc.reply.1", "corr-1",
        [("paymentId", JVal.str "p1"), ("status", JVal.str "completed"),
         ("amount", JVal.num 100)])] := by
  have h := getPaymentStatus_response storeP1 alwaysFailAttempt statusMsg
    ⟨"getPaymentStatus", "p1"⟩ payRec1 rfl rfl (by decide)
  exact h.1.trans (by decide)

/-- C6: whenever the RPC server's try block completes without a
handler-level exception, exactly one response is published, to the
request's reply-to queue and stamped with the request's correlation id,
and the request is acked; whenever the try block throws (unparseable
content, or `findOne` failing for `getPaymentStatus`), nothing is
published and the request is nacked with `requeue = false` — it is never
requeued. -/
theorem rpc_server_ack_contract (store : String → Option PaymentRec)
    (attempt : Nat → Except String PaymentRec) (msg : RpcMessage) :
    (rpcHandlerThrows store msg = false →
      (∃ r, (rpcServerConsume store attempt msg).sent =
        [(msg.replyTo, msg.correlationId, r)]) ∧
      (rpcServerConsume store attempt msg).action = .ack) ∧
    (rpcHandlerThrows store msg = true →
      (rpcServerConsume store attempt msg).sent = [] ∧
      (rpcServerConsume store attempt msg).action = .nack false false) := by
  constructor
  · intro hok
    cases hreq : msg.request with
    | none => simp [rpcHandlerThrows, hreq] at hok
    | some r =>
      by_cases hm : r.method = "getPaymentStatus"
      · cases hp : store r.paymentId with
        | none => simp [rpcHandlerThrows, hreq, hm, hp] at hok
        | some p =>
          have hsent : (rpcServerConsume store attempt msg).sent =
              [(msg.replyTo, msg.correlationId,
                [("paymentId", JVal.str p.id), ("status", JVal.str p.status),
                 ("amount", JVal.num p.amount)])] := by
            simp [rpcServerConsume, hreq, hm, findOne, hp]
          exact ⟨⟨_, hsent⟩, by simp [rpcServerConsume, hreq, hm, findOne, hp]⟩
      · by_cases hm2 : r.method = "processPaymentWithRetry"
        · have hsent : (rpcServerConsume store attempt msg).sent =
              [(msg.replyTo, msg.correlationId,
                (processWithRetry attempt r 0).response)] := by
            simp [rpcServerConsume, hreq, hm, hm2]
          exact ⟨⟨_, hsent⟩, by simp [rpcServerConsume, hreq, hm, hm2]⟩
        · have hsent : (rpcServerConsume store attempt msg).sent =
              [(msg.replyTo, msg.correlationId, [("error", JVal.str "Unknown method")])] := by
            simp [rpcServerConsume, hreq, hm, hm2]
          exact ⟨⟨_, hsent⟩, by simp [rpcServerConsume, hreq, hm, hm2]⟩
  · intro hthrow
    cases hreq : msg.request with
    | none => simp [rpcServerConsume, hreq]
    | some r =>
      simp [rpcHandlerThrows, hreq] at hthrow
      obtain ⟨hm, hp⟩ := hthrow
      constructor <;> simp [rpcServerConsume, hreq, hm, findOne, hp]

/-- C6 witness: the concrete `getPaymentStatus` request for `p1` is
answered on its reply queue and acked; a message whose content fails to
parse is nacked without requeue and gets no response. -/
theorem rpc_server_ack_contract_witness :
    (rpcServerConsume storeP1 alwaysFailAttempt statusMsg).action = .ack ∧
    (rpcServerConsume storeP1 alwaysFailAttempt ⟨none, "q", "c"⟩).action =
      .nack false false ∧
    (rpcServerConsume storeP1 alwaysFailAttempt ⟨none, "q", "c"⟩).sent = [] := by
  refine ⟨?_, ?_, ?_⟩
  · exact ((rpc_server_ack_contract storeP1 alwaysFailAttempt statusMsg).1 (by decide)).2
  · exact ((rpc_server_ack_contract storeP1 alwaysFailAttempt ⟨none, "q", "c"⟩).2
      (by decide)).2
  · exact ((rpc_server_ack_contract storeP1 alwaysFailAttempt ⟨none, "q", "c"⟩).2
      (by decide)).1

/-- C7: the beginner `payments` consumer acknowledges on every outcome —
successful processing, processor failure, `findOne` failure, and
deserialization failure all end in `channel.ack`; consequently a consumed
message is removed from the queue and never requeued. -/
theorem basic_consumer_always_acks (store : String → Option PaymentRec)
    (processOk : PaymentRec → Bool) (msg : BasicMsg) (rest : List BasicMsg) :
    consumePayments store processOk msg = .ack ∧
    queueStep (consumePayments store processOk) (msg :: rest) = rest := by
  have hack : consumePayments store processOk msg = .ack := by
    match hparse : msg.parsed with
    | none => simp [consumePayments, hparse]
    | some mid =>
      match hp : store mid with
      | none => simp [consumePayments, hparse, hp]
      | some payment =>
        by_cases hpr : processOk payment <;> simp [consumePayments, hparse, hp, hpr]
  exact ⟨hack, by simp [queueStep, hack]⟩

/-- C8: on the durable work queues, a successfully processed message is
acked; every failure (parse failure, `findOne` failure, processor failure
for `payment_processing`; parse failure or `checkFraud` failure for
`fraud_check`) is nacked with `requeue = true`, which puts the message
back at the head of the queue — so a permanently failing message is still
in the queue after arbitrarily many delivery rounds (no redelivery bound
at this layer). -/
theorem work_queue_ack_contract (store : String → Option PaymentRec)
    (processOk : PaymentRec → Bool) (checkFraud : Nat → String → Except String String) :
    (∀ msg mid p, msg.parsed = some mid → store mid = some p → processOk p = true →
      consumePaymentProcessing store processOk msg = .ack) ∧
    (∀ msg, workFails store processOk msg = true →
      consumePaymentProcessing store processOk msg = .nack false true) ∧
    (∀ fmsg pid amount userId risk, fmsg.parsed = some (pid, amount, userId) →
      checkFraud amount userId = .ok risk →
      consumeFraudChecks checkFraud fmsg = .ack) ∧
    (∀ fmsg, fraudFails checkFraud fmsg = true →
      consumeFraudChecks checkFraud fmsg = .nack false true) ∧
    (∀ msg n, workFails store processOk msg = true →
      (queueStep (consumePaymentProcessing store processOk))^[n] [msg] = [msg]) := by
  have hfail : ∀ msg, workFails store processOk msg = true →
      consumePaymentProcessing store processOk msg = .nack false true := by
    intro msg hf
    match hparse : msg.parsed with
    | none => simp [consumePaymentProcessing, hparse]
    | some mid =>
      match hp : store mid with
      | none => simp [consumePaymentProcessing, hparse, hp]
      | some payment =>
        simp [workFails, hparse, hp] at hf
        simp [consumePaymentProcessing, hparse, hp, hf]
  refine ⟨?_, hfail, ?_, ?_, ?_⟩
  · intro msg mid p hparse hp hpr
    simp [consumePaymentProcessing, hparse, hp, hpr]
  · intro fmsg pid amount userId risk hparse hcf
    by_cases hr : risk = "high" <;> simp [consumeFraudChecks, hparse, hcf, hr]
  · intro fmsg hf
    match hparse : fmsg.parsed with
    | none => simp [consumeFraudChecks, hparse]
    | some triple =>
      obtain ⟨pid, amount, userId⟩ := triple
      match hcf : checkFraud amount userId with
      | .ok risk =>
        simp [fraudFails, hparse, hcf] at hf
      | .error e => simp [consumeFraudChecks, hparse, hcf]
  · intro msg n hf
    induction n with
    | zero => rfl
    | succ n ih =>
      rw [Function.iterate_succ_apply, show
        queueStep (consumePaymentProcessing store processOk) [msg] = [msg] by
          simp [queueStep, hfail msg hf]]
      exact ih

/-- C8 witness: on concrete inputs, success acks; a processor failure
nacks with requeue, and five delivery rounds of an always-failing message
leave it in the queue. -/
theorem work_queue_ack_contract_witness :
    consumePaymentProcessing storeP1 (fun _ => true) ⟨some "p1"⟩ = .ack ∧
    consumePaymentProcessing storeP1 (fun _ => false) ⟨some "p1"⟩ = .nack false true ∧
    consumeFraudChecks (fun _ _ => .ok "low") ⟨some ("p1", 50, "u1")⟩ = .ack ∧
    consumeFraudChecks (fun _ _ => .error "stripe down") ⟨some ("p1", 50, "u1")⟩ =
      .nack false true ∧
    (queueStep (consumePaymentProcessing storeP1 (fun _ => false)))^[5]
      [⟨some "p1"⟩] = [⟨some "p1"⟩] := by
  refine ⟨?_, ?_, ?_, ?_, ?_⟩
  · exact (work_queue_ack_contract storeP1 (fun _ => true)
      (fun _ _ => .ok "low")).1 ⟨some "p1"⟩ "p1" payRec1 rfl (by decide) rfl
  · exact (work_queue_ack_contract storeP1 (fun _ => false)
      (fun _ _ => .ok "low")).2.1 ⟨some "p1"⟩ (by decide)
  · exact (work_queue_ack_contract storeP1 (fun _ => true)
      (fun _ _ => .ok "low")).2.2.1 ⟨some ("p1", 50, "u1")⟩ "p1" 50 "u1" "low" rfl rfl
  · exact (work_queue_ack_contract storeP1 (fun _ => true)
      (fun _ _ => .error "stripe down")).2.2.2.1 ⟨some ("p1", 50, "u1")⟩ (by decide)
  · exact (work_queue_ack_contract storeP1 (fun _ => false)
      (fun _ _ => .ok "low")).2.2.2.2 ⟨some "p1"⟩ 5 (by decide)

/-- C9: the DLQ consumer acknowledges every message unconditionally — a
successfully parsed entry and an unparseable entry both end in
`channel.ack` — and it publishes nothing, so a consumed DLQ message is
removed from `payment_processing.dlq` and never redelivered,
re-dead-lettered or requeued by this consumer. -/
theorem dlq_consumer_never_redelivers (msg : DlqMsg) (rest : List DlqMsg) :
    consumeDLQ msg = (.ack, []) ∧
    queueStep (fun m => (consumeDLQ m).1) (msg :: rest) = rest := by
  have hack : consumeDLQ msg = (.ack, []) := by
    match hparse : msg.parsed with
    | none => simp [consumeDLQ, hparse]
    | some meta => simp [consumeDLQ, hparse]
  refine ⟨hack, ?_⟩
  simp [queueStep, hack]

/-- C10: for every payment whose `id` is absent or falsy (a null payment
object, a missing `id`, or the empty string), `sendToPaymentQueue` throws
the error whose message is `"Invalid payment data provided"` and the
broker world is returned unchanged — no serialization, queue assertion or
publish happens. -/
theorem sendToPaymentQueue_invalid_guard (svc : Svc) (w : World)
    (payment : Option Payment) (h : paymentIdFalsy payment = true) :
    sendToPaymentQueue svc w payment = (.error .invalidPayment, w) ∧
    RmqError.message .invalidPayment = "Invalid payment data provided" := by
  refine ⟨?_, rfl⟩
  match payment with
  | none => simp [sendToPaymentQueue]
  | some p =>
    match hid : p.id with
    | none => simp [sendToPaymentQueue, hid]
    | some pid =>
      simp [paymentIdFalsy, hid] at h
      simp [sendToPaymentQueue, hid, h]

/-- C10 witness: a payment with the empty-string id is rejected with the
exact error message, and the world is untouched. -/
theorem sendToPaymentQueue_invalid_guard_witness :
    paymentIdFalsy (some ⟨some "", "u1", "o1", 50⟩) = true ∧
    sendToPaymentQueue ⟨some 0, some 0⟩ world0 (some ⟨some "", "u1", "o1", 50⟩) =
      (.error .invalidPayment, world0) ∧
    RmqError.message .invalidPayment = "Invalid payment data provided" := by
  have h := sendToPaymentQueue_invalid_guard ⟨some 0, some 0⟩ world0
    (some ⟨some "", "u1", "o1", 50⟩) (by decide)
  exact ⟨by decide, h.1, h.2⟩
